import Mathlib

/-!
Verification of the VoiceNest call-session gateway.

This file gives a shallow embedding of the repository's Vapi integration
layer and its HTTP boundary, and proves/refutes the specification claims
about them.

The repository contains three divergent revisions of the `VapiService`
class:
  * `server/vapi_integration.js` (the file required by the app layer) —
    embedded below in namespace `SrvRev`;
  * an unnamed revision (here called `part_001`) — namespace `RevA`;
  * an unnamed revision (here called `part_002`) — namespace `RevB`.
The app layer (`server/app.js`, here called `part_000`) is embedded at
top level (`webhook`, `callsRoute`).

JavaScript values appearing in payloads are modelled by `JsVal`; the
HTTP requests each gateway method constructs are modelled by `Request`
(options plus optional JSON body), and the outcome of an upstream
exchange is an `Except String JsVal` oracle passed to the response-phase
functions (`*Run`).  Errors are modelled as the exact message strings the
JavaScript code builds.
-/

/-- Model of a JavaScript/JSON value as it can appear in a request or
response payload.  `undefined` is included because JavaScript member
access produces it for absent fields.  Numbers are modelled as integers
(no claim depends on non-integral numbers). -/
inductive JsVal : Type where
  | undefined : JsVal
  | null : JsVal
  | bool : Bool → JsVal
  | num : Int → JsVal
  | str : String → JsVal
  | arr : List JsVal → JsVal
  | obj : List (String × JsVal) → JsVal

/-- JavaScript truthiness: `undefined`, `null`, `false`, `0` and the
empty string are falsy; every object and array (including `{}` and
`[]`) is truthy. -/
def jsTruthy : JsVal → Bool
  | .undefined => false
  | .null => false
  | .bool b => b
  | .num n => n != 0
  | .str s => s != ""
  | .arr _ => true
  | .obj _ => true

/-- Lookup of a field in a modelled object: first binding wins,
mirroring the object produced by `JSON.parse`. -/
def objLookup (fs : List (String × JsVal)) (k : String) : Option JsVal :=
  List.lookup k fs

/-- Total JavaScript member access for non-nullish receivers: objects
yield the field or `undefined`; every other (non-nullish) value yields
`undefined` for the field names used in this code base. -/
def jsGet : JsVal → String → JsVal
  | .obj fs, k => (objLookup fs k).getD .undefined
  | _, _ => .undefined

/-- JavaScript member access including the `TypeError` raised on a
nullish receiver (`null.x` / `undefined.x` throw). -/
def jsGetE : JsVal → String → Except String JsVal
  | .null, _ => .error "TypeError: Cannot read properties of null"
  | .undefined, _ => .error "TypeError: Cannot read properties of undefined"
  | v, k => .ok (jsGet v k)

/-- JavaScript `a || b`. -/
def jsvOr (a b : JsVal) : JsVal :=
  if jsTruthy a then a else b

/-- Stringification used by template literals, for the value kinds that
can reach one in this code base. -/
def jsTemplate : JsVal → String
  | .undefined => "undefined"
  | .null => "null"
  | .bool b => if b then "true" else "false"
  | .num n => toString n
  | .str s => s
  | .arr _ => ""
  | .obj _ => "[object Object]"

/-- Fields contributed by an object spread `{...v}`: an object's own
fields, nothing for other values reaching the spreads in this code. -/
def jsSpreadFields : JsVal → List (String × JsVal)
  | .obj fs => fs
  | _ => []

/-- Setting a key in a modelled object literal `{...v, k: x}`: an
existing binding is overwritten in place, otherwise the binding is
appended. -/
def objSet (fs : List (String × JsVal)) (k : String) (v : JsVal) :
    List (String × JsVal) :=
  if (objLookup fs k).isSome then
    fs.map (fun p => if p.1 = k then (p.1, v) else p)
  else
    fs ++ [(k, v)]

/-- Payload shapes that the `express.json()` body parser can deliver to
a route (strict mode accepts only top-level objects and arrays). -/
def jsIsObjOrArr : JsVal → Bool
  | .obj _ => true
  | .arr _ => true
  | _ => false

/-- Credential triple read from the environment at construction time;
`none` models an unset environment variable. -/
structure VapiConfig : Type where
  privateKey : Option String
  publicKey : Option String
  assistantId : Option String

/-- Mirror of the constructor line `this.apiKey = this.privateKey`. -/
def VapiConfig.apiKey (c : VapiConfig) : Option String :=
  c.privateKey

/-- Truthiness of an environment string: unset or empty is falsy. -/
def strTruthy : Option String → Bool
  | none => false
  | some s => s != ""

/-- Template interpolation of a possibly-unset key into the
`Authorization` header value, mirroring `Bearer ${key}`. -/
def bearerOf (k : Option String) : String :=
  "Bearer " ++ k.getD "undefined"

/-- JsVal of an environment variable (`undefined` when unset). -/
def optEnvJsv : Option String → JsVal
  | none => .undefined
  | some s => .str s

/-- JsVal of a defaulted-`null` JavaScript parameter. -/
def optArgJsv : Option String → JsVal
  | none => .null
  | some s => .str s

/-- Gateway state: the configuration plus the `initialized` flag. -/
structure VapiState : Type where
  cfg : VapiConfig
  initialized : Bool

/-- Options object passed to `https.request`. -/
structure ReqOptions : Type where
  hostname : String
  path : String
  method : String
  headers : List (String × String)

/-- A fully constructed upstream request: options plus the optional
JSON body passed to `makeRequest`. -/
structure Request : Type where
  options : ReqOptions
  body : Option JsVal

/-- Authorization header of a constructed request. -/
def Request.auth (r : Request) : Option String :=
  List.lookup "Authorization" r.options.headers

/-- Characters removed by `phoneNumber.replace` with the class
`[\s\-\(\)]` (whitespace approximated by ASCII whitespace). -/
def strippedChar (c : Char) : Bool :=
  c.isWhitespace || c == '-' || c == '(' || c == ')'

/-- Mirror of `const cleanPhone = phoneNumber.replace(/[\s\-\(\)]/g, '')`. -/
def cleanPhone (p : String) : String :=
  ⟨p.data.filter (fun c => !strippedChar c)⟩

/-- Decision procedure for the phone regular expression
`^\+?[1-9]\d{8,14}$`: an optional leading plus, a nonzero digit, then
eight to fourteen further digits. -/
def phoneRegexTest (s : String) : Bool :=
  let l := s.data
  let l1 := match l with
    | '+' :: rest => rest
    | _ => l
  match l1 with
  | [] => false
  | c :: rest =>
      ('1' ≤ c && c ≤ '9') && rest.all Char.isDigit &&
        (8 ≤ rest.length && rest.length ≤ 14)

/-- Mirror of `cleanPhone.startsWith('+')`. -/
def startsPlus (c : String) : Bool :=
  match c.data with
  | '+' :: _ => true
  | _ => false

/-- Normalization applied on a successful match: prefix a plus unless
the cleaned number already starts with one. -/
def normalizePhone (c : String) : String :=
  if startsPlus c then c else "+" ++ c

namespace SrvRev

/-- Mirror of `validateConfig` in `server/vapi_integration.js`:
presence of the three credentials (no placeholder checks in this
revision). -/
def validateConfig (c : VapiConfig) : Bool :=
  strTruthy c.privateKey && strTruthy c.publicKey && strTruthy c.assistantId

/-- State after the constructor ran: `initialize` sets the flag exactly
when `validateConfig` passes. -/
def initState (c : VapiConfig) : VapiState :=
  ⟨c, validateConfig c⟩

/-- Base host in this revision (a bare hostname). -/
def baseUrl : String := "api.vapi.ai"

/-- Request phase of `getAssistant`: this revision checks only the
assistant id (no initialization re-check). -/
def getAssistantReq (s : VapiState) : Except String Request :=
  if strTruthy s.cfg.assistantId then
    .ok ⟨⟨baseUrl, "/assistant/" ++ s.cfg.assistantId.getD "undefined", "GET",
      [("Authorization", bearerOf s.cfg.apiKey),
       ("Content-Type", "application/json")]⟩, none⟩
  else
    .error "Assistant ID not configured"

/-- Outcome of `getAssistant` given the transport outcome `u`. -/
def getAssistantRun (s : VapiState) (u : Except String JsVal) :
    Except String JsVal :=
  match getAssistantReq s with
  | .error e => .error e
  | .ok _ => u

/-- Request phase of `makeCall`: API-key gate, required-phone gate,
strip/regex validation, then the `/call/phone` POST with the normalized
customer number.  Returning `.ok` models reaching the network;
returning `.error` models rejecting before any network call. -/
def makeCallReq (s : VapiState) (phoneNumber : String)
    (customAssistantId : Option String) : Except String Request :=
  if strTruthy s.cfg.apiKey then
    if phoneNumber = "" then .error "Phone number is required"
    else
      let cp := cleanPhone phoneNumber
      if phoneRegexTest cp then
        .ok ⟨⟨baseUrl, "/call/phone", "POST",
          [("Authorization", bearerOf s.cfg.apiKey),
           ("Content-Type", "application/json")]⟩,
          some (.obj
            [("assistantId",
               jsvOr (optArgJsv customAssistantId) (optEnvJsv s.cfg.assistantId)),
             ("phoneNumberId", .null),
             ("customer", .obj [("number", .str (normalizePhone cp))])])⟩
      else
        .error "Invalid phone number format. Use international format (+1234567890)"
  else
    .error "Vapi API key not configured"

/-- Request phase of `createWebCall` in this revision: gated on the
private key only, POST `/call/web`, public key in the Authorization
header. -/
def createWebCallReq (s : VapiState) (customAssistantId : Option String) :
    Except String Request :=
  if strTruthy s.cfg.privateKey then
    .ok ⟨⟨baseUrl, "/call/web", "POST",
      [("Authorization", bearerOf s.cfg.publicKey),
       ("Content-Type", "application/json")]⟩,
      some (.obj
        [("assistantId",
           jsvOr (optArgJsv customAssistantId) (optEnvJsv s.cfg.assistantId))])⟩
  else
    .error "Vapi private key not configured"

/-- Full `createWebCall` of this revision given the transport outcome:
no shape validation — the success log reads `result.id` (a `TypeError`
on a nullish result) and the upstream object is returned spread
together with the public key. -/
def createWebCallRun (s : VapiState) (customAssistantId : Option String)
    (u : Except String JsVal) : Except String JsVal :=
  match createWebCallReq s customAssistantId with
  | .error e => .error e
  | .ok _ =>
    match u with
    | .error e => .error e
    | .ok result =>
      match jsGetE result "id" with
      | .error e => .error e
      | .ok _ =>
        .ok (.obj (objSet (jsSpreadFields result) "publicKey"
          (optEnvJsv s.cfg.publicKey)))

/-- Request phase of `getCalls`: the declared parameter list is
`(limit = 100)`; the path interpolates only the limit. -/
def getCallsReq (s : VapiState) (limit : Option Int) : Except String Request :=
  if strTruthy s.cfg.apiKey then
    .ok ⟨⟨baseUrl, "/call?limit=" ++ toString (limit.getD 100), "GET",
      [("Authorization", bearerOf s.cfg.apiKey),
       ("Content-Type", "application/json")]⟩, none⟩
  else
    .error "Vapi API key not configured"

/-- Request phase of `getCall`: gated on the private key and a truthy
call id; the private key is placed in the header directly. -/
def getCallReq (s : VapiState) (callId : String) : Except String Request :=
  if strTruthy s.cfg.privateKey then
    if callId = "" then .error "Call ID is required"
    else
      .ok ⟨⟨baseUrl, "/call/" ++ callId, "GET",
        [("Authorization", bearerOf s.cfg.privateKey),
         ("Content-Type", "application/json")]⟩, none⟩
  else
    .error "Vapi private key not configured"

/-- Outcome of `getCall` given the transport outcome `u`. -/
def getCallRun (s : VapiState) (callId : String) (u : Except String JsVal) :
    Except String JsVal :=
  match getCallReq s callId with
  | .error e => .error e
  | .ok _ => u

/-- Mirror of `getCallTranscript`: `call.transcript || null` on
success, and the catch block re-raises the same failure. -/
def getCallTranscriptRun (s : VapiState) (callId : String)
    (u : Except String JsVal) : Except String JsVal :=
  match getCallRun s callId u with
  | .error e => .error e
  | .ok call =>
    match jsGetE call "transcript" with
    | .error e => .error e
    | .ok t => .ok (if jsTruthy t then t else .null)

/-- Request phase of `endCall`. -/
def endCallReq (s : VapiState) (callId : String) : Except String Request :=
  if strTruthy s.cfg.apiKey then
    if callId = "" then .error "Call ID is required"
    else
      .ok ⟨⟨baseUrl, "/call/" ++ callId, "DELETE",
        [("Authorization", bearerOf s.cfg.apiKey),
         ("Content-Type", "application/json")]⟩, none⟩
  else
    .error "Vapi API key not configured"

/-- Request phase of `updateAssistant`. -/
def updateAssistantReq (s : VapiState) (updates : JsVal) :
    Except String Request :=
  if strTruthy s.cfg.assistantId then
    .ok ⟨⟨baseUrl, "/assistant/" ++ s.cfg.assistantId.getD "undefined", "PATCH",
      [("Authorization", bearerOf s.cfg.apiKey),
       ("Content-Type", "application/json")]⟩, some updates⟩
  else
    .error "Assistant ID not configured"

/-- Response classification of `makeRequest` in this revision: the body
is parsed unconditionally (no empty-body case), a 2xx status resolves
with the parsed payload, other statuses reject with the status code and
`response.message || body`, and a parse failure (including the one
raised by reading `.message` of a nullish payload) rejects with a parse
error.  `parse` stands for `JSON.parse`. -/
def makeRequest (status : Nat) (body : String)
    (parse : String → Except String JsVal) : Except String JsVal :=
  match parse body with
  | .error e => .error ("Parse Error: " ++ e)
  | .ok response =>
    if 200 ≤ status ∧ status < 300 then .ok response
    else
      match jsGetE response "message" with
      | .error e => .error ("Parse Error: " ++ e)
      | .ok m =>
        .error ("API Error: " ++ toString status ++ " - " ++
          (if jsTruthy m then jsTemplate m else body))

/-- Mirror of `healthCheck` in this revision: the uninitialized branch
returns status `initializing`; otherwise `getAssistant` decides between
`healthy` and `error`. -/
def healthCheck (s : VapiState) (u : Except String JsVal) : JsVal :=
  if s.initialized then
    match getAssistantRun s u with
    | .ok a =>
      .obj [("status", .str "healthy"),
            ("apiKeyPresent", .bool (strTruthy s.cfg.apiKey)),
            ("assistantId", optEnvJsv s.cfg.assistantId),
            ("assistantName",
              let nm := jsGet a "name"
              if jsTruthy nm then nm else .str "Unknown")]
    | .error e => .obj [("status", .str "error"), ("message", .str e)]
  else
    .obj [("status", .str "initializing")]

end SrvRev

namespace RevA

/-- Mirror of `validateConfig` in the `part_001` revision: presence of
the three credentials, each also rejected when equal to its placeholder
sentinel. -/
def validateConfig (c : VapiConfig) : Bool :=
  (strTruthy c.privateKey && c.privateKey.getD "" != "your_private_key_here") &&
  (strTruthy c.publicKey && c.publicKey.getD "" != "your_public_key_here") &&
  (strTruthy c.assistantId && c.assistantId.getD "" != "your_assistant_id_here")

/-- State after the `part_001` constructor: `initialize` runs (and sets
the flag) exactly when `validateConfig` passes. -/
def initState (c : VapiConfig) : VapiState :=
  ⟨c, validateConfig c⟩

/-- Request phase of `getAssistant` in `part_001`: re-checks
initialization, then the assistant id. -/
def getAssistantReq (s : VapiState) : Except String Request :=
  if s.initialized then
    if strTruthy s.cfg.assistantId then
      .ok ⟨⟨SrvRev.baseUrl, "/assistant/" ++ s.cfg.assistantId.getD "undefined",
        "GET",
        [("Authorization", bearerOf s.cfg.apiKey),
         ("Content-Type", "application/json")]⟩, none⟩
    else
      .error "Assistant ID not configured"
  else
    .error "VapiService not initialized. Please check configuration."

/-- Outcome of the `part_001` `getAssistant` given the transport
outcome `u`. -/
def getAssistantRun (s : VapiState) (u : Except String JsVal) :
    Except String JsVal :=
  match getAssistantReq s with
  | .error e => .error e
  | .ok _ => u

/-- Mirror of `healthCheck` in `part_001`: the uninitialized branch
returns status `not_configured` without consulting the upstream;
otherwise `getAssistant` decides between `healthy` and `error`, and
every failure is caught and converted into the `error` status object. -/
def healthCheck (s : VapiState) (u : Except String JsVal) : JsVal :=
  if s.initialized then
    match getAssistantRun s u with
    | .ok a =>
      .obj [("status", .str "healthy"),
            ("apiKeyPresent", .bool (strTruthy s.cfg.apiKey)),
            ("assistantId", optEnvJsv s.cfg.assistantId),
            ("assistantName",
              let nm := jsGet a "name"
              if jsTruthy nm then nm else .str "Unknown")]
    | .error e => .obj [("status", .str "error"), ("message", .str e)]
  else
    .obj [("status", .str "not_configured"),
          ("message",
            .str "Vapi service not initialized. Please check environment variables.")]

/-- Request phase of `createWebCall` in `part_001`: re-checks
initialization, gated on the private key, POST `/call/web`, public key
in the Authorization header. -/
def createWebCallReq (s : VapiState) (customAssistantId : Option String) :
    Except String Request :=
  if s.initialized then
    if strTruthy s.cfg.privateKey then
      .ok ⟨⟨SrvRev.baseUrl, "/call/web", "POST",
        [("Authorization", bearerOf s.cfg.publicKey),
         ("Content-Type", "application/json")]⟩,
        some (.obj
          [("assistantId",
             jsvOr (optArgJsv customAssistantId) (optEnvJsv s.cfg.assistantId))])⟩
    else
      .error "Vapi private key not configured"
  else
    .error "VapiService not initialized. Please check configuration."

end RevA

namespace RevB

/-- Mirror of `validateConfig` in the `part_002` revision (same checks
as `part_001`, collected into an issue list whose emptiness is the
result). -/
def validateConfig (c : VapiConfig) : Bool :=
  (strTruthy c.privateKey && c.privateKey.getD "" != "your_private_key_here") &&
  (strTruthy c.publicKey && c.publicKey.getD "" != "your_public_key_here") &&
  (strTruthy c.assistantId && c.assistantId.getD "" != "your_assistant_id_here")

/-- State after the `part_002` constructor: `initialize` runs (and sets
the flag) exactly when `validateConfig` passes. -/
def initState (c : VapiConfig) : VapiState :=
  ⟨c, validateConfig c⟩

/-- Base host in this revision (a full URL; `makeRequest` re-derives
the bare hostname from it before issuing the request). -/
def baseUrl : String := "https://api.vapi.ai"

/-- Response classification of `makeRequest` in `part_002`: an empty
body resolves to `{}` on 2xx and rejects with only the status code
otherwise; a non-empty body is parsed, a 2xx status resolves with the
parsed payload, other statuses reject with the status code and
`response.message || body`, and a parse failure (including the
`TypeError` raised by reading `.message` of a nullish payload) rejects
with a parse error.  `parse` stands for `JSON.parse`. -/
def makeRequest (status : Nat) (body : String)
    (parse : String → Except String JsVal) : Except String JsVal :=
  if body = "" then
    if 200 ≤ status ∧ status < 300 then .ok (.obj [])
    else .error ("API Error: " ++ toString status)
  else
    match parse body with
    | .error e => .error ("Parse Error: " ++ e)
    | .ok response =>
      if 200 ≤ status ∧ status < 300 then .ok response
      else
        match jsGetE response "message" with
        | .error e => .error ("Parse Error: " ++ e)
        | .ok m =>
          .error ("API Error: " ++ toString status ++ " - " ++
            (if jsTruthy m then jsTemplate m else body))

/-- Request phase of `getAssistant` in `part_002`: re-checks
initialization, then the assistant id. -/
def getAssistantReq (s : VapiState) : Except String Request :=
  if s.initialized then
    if strTruthy s.cfg.assistantId then
      .ok ⟨⟨baseUrl, "/assistant/" ++ s.cfg.assistantId.getD "undefined", "GET",
        [("Authorization", bearerOf s.cfg.apiKey),
         ("Content-Type", "application/json")]⟩, none⟩
    else
      .error "Assistant ID not configured"
  else
    .error "VapiService not initialized. Please check configuration."

/-- Outcome of `getAssistant` given the transport outcome `u`. -/
def getAssistantRun (s : VapiState) (u : Except String JsVal) :
    Except String JsVal :=
  match getAssistantReq s with
  | .error e => .error e
  | .ok _ => u

/-- Mirror of `healthCheck` in `part_002` (identical in `part_001`):
the uninitialized branch returns status `not_configured` without
consulting the upstream; otherwise `getAssistant` decides between
`healthy` and `error`, and every failure is caught and converted into
the `error` status object. -/
def healthCheck (s : VapiState) (u : Except String JsVal) : JsVal :=
  if s.initialized then
    match getAssistantRun s u with
    | .ok a =>
      .obj [("status", .str "healthy"),
            ("apiKeyPresent", .bool (strTruthy s.cfg.apiKey)),
            ("assistantId", optEnvJsv s.cfg.assistantId),
            ("assistantName",
              let nm := jsGet a "name"
              if jsTruthy nm then nm else .str "Unknown")]
    | .error e => .obj [("status", .str "error"), ("message", .str e)]
  else
    .obj [("status", .str "not_configured"),
          ("message",
            .str "Vapi service not initialized. Please check environment variables.")]

/-- Request phase of `makeCall` in `part_002`: initialization re-check,
API-key gate, required-phone gate, strip/regex validation, then the
`/call/phone` POST with the normalized customer number. -/
def makeCallReq (s : VapiState) (phoneNumber : String)
    (customAssistantId : Option String) : Except String Request :=
  if s.initialized then
    if strTruthy s.cfg.apiKey then
      if phoneNumber = "" then .error "Phone number is required"
      else
        let cp := cleanPhone phoneNumber
        if phoneRegexTest cp then
          .ok ⟨⟨baseUrl, "/call/phone", "POST",
            [("Authorization", bearerOf s.cfg.apiKey),
             ("Content-Type", "application/json")]⟩,
            some (.obj
              [("assistantId",
                 jsvOr (optArgJsv customAssistantId) (optEnvJsv s.cfg.assistantId)),
               ("phoneNumberId", .null),
               ("customer", .obj [("number", .str (normalizePhone cp))])])⟩
        else
          .error "Invalid phone number format. Use international format (+1234567890)"
    else
      .error "Vapi API key not configured"
  else
    .error "VapiService not initialized. Please check configuration."

/-- Fixed default websocket/PCM16/16kHz transport profile injected when
the caller supplies no transport configuration. -/
def defaultTransport : JsVal :=
  .obj [("provider", .str "vapi.websocket"),
        ("audioFormat",
          .obj [("format", .str "pcm_s16le"),
                ("container", .str "raw"),
                ("sampleRate", .num 16000)])]

/-- Request phase of `createWebCall` in `part_002`: initialization
re-check, gated on the private key, POST `/call` carrying the caller's
transport configuration or the default profile, private key in the
Authorization header. -/
def createWebCallReq (s : VapiState) (customAssistantId : Option String)
    (transportConfig : Option JsVal) : Except String Request :=
  if s.initialized then
    if strTruthy s.cfg.privateKey then
      .ok ⟨⟨baseUrl, "/call", "POST",
        [("Authorization", bearerOf s.cfg.privateKey),
         ("Content-Type", "application/json"),
         ("Accept", "application/json")]⟩,
        some (.obj
          [("assistantId",
             jsvOr (optArgJsv customAssistantId) (optEnvJsv s.cfg.assistantId)),
           ("transport", jsvOr (transportConfig.getD .null) defaultTransport)])⟩
    else
      .error "Vapi private key not configured"
  else
    .error "VapiService not initialized. Please check configuration."

/-- Mirror of the `part_002` response validation
`!result || !result.id || !result.transport ||
!result.transport.websocketCallUrl`, with member accesses on a nullish
receiver propagating their `TypeError`. -/
def webCallResultValid (result : JsVal) : Except String Bool :=
  if jsTruthy result then
    match jsGetE result "id" with
    | .error e => .error e
    | .ok id =>
      if jsTruthy id then
        match jsGetE result "transport" with
        | .error e => .error e
        | .ok tr =>
          if jsTruthy tr then
            match jsGetE tr "websocketCallUrl" with
            | .error e => .error e
            | .ok url => .ok (jsTruthy url)
          else .ok false
      else .ok false
  else .ok false

/-- Full `createWebCall` of `part_002` given the transport outcome:
after the gates, an invalid upstream result is rejected with the
invalid-upstream-response error even though the transport reported
success, and a valid result is returned spread together with the public
key. -/
def createWebCallRun (s : VapiState) (customAssistantId : Option String)
    (transportConfig : Option JsVal) (u : Except String JsVal) :
    Except String JsVal :=
  match createWebCallReq s customAssistantId transportConfig with
  | .error e => .error e
  | .ok _ =>
    match u with
    | .error e => .error e
    | .ok result =>
      match webCallResultValid result with
      | .error e => .error e
      | .ok false =>
        .error "Invalid response from Vapi API - missing required fields"
      | .ok true =>
        .ok (.obj (objSet (jsSpreadFields result) "publicKey"
          (optEnvJsv s.cfg.publicKey)))

/-- Request phase of `getCalls` in `part_002`: initialization re-check,
API-key gate; the declared parameter list is `(limit = 100)` and the
path interpolates only the limit. -/
def getCallsReq (s : VapiState) (limit : Option Int) : Except String Request :=
  if s.initialized then
    if strTruthy s.cfg.apiKey then
      .ok ⟨⟨baseUrl, "/call?limit=" ++ toString (limit.getD 100), "GET",
        [("Authorization", bearerOf s.cfg.apiKey),
         ("Content-Type", "application/json")]⟩, none⟩
    else
      .error "Vapi API key not configured"
  else
    .error "VapiService not initialized. Please check configuration."

/-- Request phase of `getCall` in `part_002`. -/
def getCallReq (s : VapiState) (callId : String) : Except String Request :=
  if s.initialized then
    if strTruthy s.cfg.privateKey then
      if callId = "" then .error "Call ID is required"
      else
        .ok ⟨⟨baseUrl, "/call/" ++ callId, "GET",
          [("Authorization", bearerOf s.cfg.privateKey),
           ("Content-Type", "application/json")]⟩, none⟩
    else
      .error "Vapi private key not configured"
  else
    .error "VapiService not initialized. Please check configuration."

/-- Request phase of `endCall` in `part_002`. -/
def endCallReq (s : VapiState) (callId : String) : Except String Request :=
  if s.initialized then
    if strTruthy s.cfg.apiKey then
      if callId = "" then .error "Call ID is required"
      else
        .ok ⟨⟨baseUrl, "/call/" ++ callId, "DELETE",
          [("Authorization", bearerOf s.cfg.apiKey),
           ("Content-Type", "application/json")]⟩, none⟩
    else
      .error "Vapi API key not configured"
  else
    .error "VapiService not initialized. Please check configuration."

/-- Request phase of `updateAssistant` in `part_002`. -/
def updateAssistantReq (s : VapiState) (updates : JsVal) :
    Except String Request :=
  if s.initialized then
    if strTruthy s.cfg.assistantId then
      .ok ⟨⟨baseUrl, "/assistant/" ++ s.cfg.assistantId.getD "undefined",
        "PATCH",
        [("Authorization", bearerOf s.cfg.apiKey),
         ("Content-Type", "application/json")]⟩, some updates⟩
    else
      .error "Assistant ID not configured"
  else
    .error "VapiService not initialized. Please check configuration."

end RevB

/-- Webhook types receiving a type-specific observation action in the
`switch` of the app-layer webhook route. -/
def recognizedWebhookTypes : List String :=
  ["status-update", "transcript", "call-ended", "speech-update",
   "conversation-update", "end-of-call-report"]

/-- Dispatch tag of the webhook `switch`: each recognized type has its
own observation action, everything else falls to the generic default
log. -/
def webhookActionTag (ty : JsVal) : String :=
  match ty with
  | .str s => if recognizedWebhookTypes.contains s then s else "unhandled"
  | _ => "unhandled"

/-- Mirror of the app-layer `POST webhook` route: destructure `type`
and `data` from the payload (a `TypeError` on a nullish body is caught
like any other internal failure), reject with 400 when either is falsy,
otherwise dispatch the switch and acknowledge with 200; any failure
raised by the internal processing (`procErr`) is caught and answered
with 200 and a body carrying the error message.  The result is the
HTTP status paired with the JSON response body. -/
def webhook (payload : JsVal) (procErr : Option String) : Nat × JsVal :=
  let compute : Except String (Nat × JsVal) :=
    match jsGetE payload "type" with
    | .error e => .error e
    | .ok ty =>
      match jsGetE payload "data" with
      | .error e => .error e
      | .ok da =>
        if jsTruthy ty && jsTruthy da then
          match procErr with
          | some e => .error e
          | none => .ok (200, .obj [("success", .bool true)])
        else
          .ok (400, .obj [("success", .bool false),
                          ("error", .str "Invalid webhook payload")])
  match compute with
  | .ok r => r
  | .error e => (200, .obj [("success", .bool false), ("error", .str e)])

/-- JavaScript call site `vapiService.getCalls(parseInt(limit),
parseInt(offset))` in the app layer: the method declares a single
parameter, so the second argument is accepted but discarded at the
call. -/
def getCallsWithOffset (s : VapiState) (limit _offset : Int) :
    Except String Request :=
  SrvRev.getCallsReq s (some limit)

/-- Mirror of the app-layer `GET calls` route: `limit` defaults to 50
and `offset` to 0 when the query omits them, and both are forwarded to
`getCalls`. -/
def callsRoute (s : VapiState) (limitQ offsetQ : Option Int) :
    Except String Request :=
  getCallsWithOffset s (limitQ.getD 50) (offsetQ.getD 0)

/-- Occurrence of `sub` as a contiguous substring of `s`. -/
def strContainsSub (s sub : String) : Prop :=
  ∃ pre post, s = pre ++ sub ++ post

/-- Member access on a payload delivered by the strict JSON body parser
never raises: the receiver is an object or an array. -/
theorem jsGetE_of_objOrArr (v : JsVal) (k : String)
    (h : jsIsObjOrArr v = true) : jsGetE v k = .ok (jsGet v k) := by
  cases v <;> simp_all [jsIsObjOrArr, jsGetE]

/-- Member access on a truthy receiver never raises. -/
theorem jsGetE_of_truthy (v : JsVal) (k : String)
    (h : jsTruthy v = true) : jsGetE v k = .ok (jsGet v k) := by
  cases v <;> simp_all [jsTruthy, jsGetE]

/-- Member access on a non-nullish receiver never raises. -/
theorem jsGetE_of_ne (v : JsVal) (k : String)
    (h1 : v ≠ .null) (h2 : v ≠ .undefined) : jsGetE v k = .ok (jsGet v k) := by
  cases v <;> simp_all [jsGetE]

/-- A value with a truthy field is an object. -/
theorem jsGet_truthy_obj (v : JsVal) (k : String)
    (h : jsTruthy (jsGet v k) = true) : ∃ fs, v = .obj fs := by
  cases v <;> simp_all [jsGet, jsTruthy]

/-- Overwriting one key in place leaves lookups of other keys
unchanged. -/
theorem lookup_mapSet_ne (k k2 : String) (v : JsVal) (h : k2 ≠ k) :
    ∀ fs : List (String × JsVal),
      List.lookup k2 (fs.map (fun p => if p.1 = k then (p.1, v) else p))
        = List.lookup k2 fs := by
  intro fs
  induction fs with
  | nil => rfl
  | cons a tl ih =>
    obtain ⟨a1, a2⟩ := a
    by_cases ha : a1 = k
    · by_cases hk : k2 = a1
      · exact absurd (hk.trans ha) h
      · simp [List.lookup_cons, ha, hk, beq_false_of_ne h, ih]
    · by_cases hk : k2 = a1
      · simp [List.lookup_cons, ha, hk]
      · simp [List.lookup_cons, ha, hk, ih]

/-- Appending a binding for one key leaves lookups of other keys
unchanged. -/
theorem lookup_append_one_ne (k k2 : String) (v : JsVal) (h : k2 ≠ k) :
    ∀ fs : List (String × JsVal),
      List.lookup k2 (fs ++ [(k, v)]) = List.lookup k2 fs := by
  intro fs
  induction fs with
  | nil => simp [List.lookup_cons, beq_false_of_ne h]
  | cons a tl ih =>
    obtain ⟨a1, a2⟩ := a
    by_cases hk : k2 = a1
    · simp [List.lookup_cons, hk]
    · simp [List.lookup_cons, hk, ih]

/-- Setting one key of an object leaves lookups of other keys
unchanged. -/
theorem objLookup_objSet_ne (fs : List (String × JsVal)) (k : String)
    (v : JsVal) (k2 : String) (h : k2 ≠ k) :
    objLookup (objSet fs k v) k2 = objLookup fs k2 := by
  unfold objSet objLookup
  split
  · exact lookup_mapSet_ne k k2 v h fs
  · exact lookup_append_one_ne k k2 v h fs

/-- C8 (confirmed): `getCallTranscript` propagates a failing `getCall`
outcome unchanged, and when `getCall` succeeds with a call object that
has no `transcript` field it returns `null` rather than an error. -/
theorem c8_transcript_null_or_propagate (s : VapiState) (cid : String)
    (u : Except String JsVal) :
    (∀ e, SrvRev.getCallRun s cid u = .error e →
      SrvRev.getCallTranscriptRun s cid u = .error e) ∧
    (∀ fs, SrvRev.getCallRun s cid u = .ok (.obj fs) →
      objLookup fs "transcript" = none →
      SrvRev.getCallTranscriptRun s cid u = .ok .null) := by
  constructor
  · intro e he
    simp [SrvRev.getCallTranscriptRun, he]
  · intro fs hok hnone
    simp [SrvRev.getCallTranscriptRun, hok, jsGetE, jsGet, hnone, jsTruthy]

/-- C8 witness: a concrete configured state where a successful call
fetch without a `transcript` field yields `null`, and a failing fetch
is propagated unchanged. -/
theorem c8_witness :
    SrvRev.getCallRun (SrvRev.initState ⟨some "pk", some "pub", some "aid"⟩)
        "c1" (.ok (.obj [("id", .str "c1")])) = .ok (.obj [("id", .str "c1")]) ∧
    objLookup [("id", JsVal.str "c1")] "transcript" = none ∧
    SrvRev.getCallTranscriptRun
        (SrvRev.initState ⟨some "pk", some "pub", some "aid"⟩) "c1"
        (.ok (.obj [("id", .str "c1")])) = .ok .null ∧
    SrvRev.getCallRun (SrvRev.initState ⟨some "pk", some "pub", some "aid"⟩)
        "c1" (.error "API Error: 500 - boom") = .error "API Error: 500 - boom" ∧
    SrvRev.getCallTranscriptRun
        (SrvRev.initState ⟨some "pk", some "pub", some "aid"⟩) "c1"
        (.error "API Error: 500 - boom") = .error "API Error: 500 - boom" := by
  refine ⟨rfl, rfl, ?_, rfl, ?_⟩
  · exact (c8_transcript_null_or_propagate _ "c1" _).2 _ rfl rfl
  · exact (c8_transcript_null_or_propagate _ "c1" _).1 _ rfl

/-- C10 (confirmed): on the payloads the strict JSON body parser can
deliver, the webhook handler answers 400 exactly when the `type` field
or the `data` field is falsy (absent, empty string, `0`, `false` or
`null`), and acknowledges with 200 exactly when both are truthy — in
particular an empty object `{}` as `data` is truthy and acknowledged. -/
theorem c10_webhook_truthiness (p : JsVal) (perr : Option String)
    (hp : jsIsObjOrArr p = true) :
    ((webhook p perr).1 = 400 ↔
      ¬ (jsTruthy (jsGet p "type") = true ∧ jsTruthy (jsGet p "data") = true)) ∧
    ((webhook p perr).1 = 200 ↔
      (jsTruthy (jsGet p "type") = true ∧ jsTruthy (jsGet p "data") = true)) := by
  have ht := jsGetE_of_objOrArr p "type" hp
  have hd := jsGetE_of_objOrArr p "data" hp
  by_cases h1 : jsTruthy (jsGet p "type") = true <;>
    by_cases h2 : jsTruthy (jsGet p "data") = true <;>
      cases perr <;> simp_all [webhook]

/-- C10 witness: concrete payloads on both sides of the truthiness
boundary — truthy `type` with `{}` as `data` is acknowledged with 200,
while an empty-string `type`, a zero `data`, a `false` `data` and a
`null` `data` are each rejected with 400 although the field is
present. -/
theorem c10_witness :
    jsIsObjOrArr (JsVal.obj [("type", .str "t"), ("data", .obj [])]) = true ∧
    (webhook (.obj [("type", .str "t"), ("data", .obj [])]) none).1 = 200 ∧
    (webhook (.obj [("type", .str ""), ("data", .obj [])]) none).1 = 400 ∧
    (webhook (.obj [("type", .str "transcript"), ("data", .num 0)]) none).1 = 400 ∧
    (webhook (.obj [("type", .str "t"), ("data", .bool false)]) none).1 = 400 ∧
    (webhook (.obj [("type", .str "t"), ("data", .null)]) none).1 = 400 := by
  refine ⟨rfl, ?_, ?_, ?_, ?_, ?_⟩
  · exact (c10_webhook_truthiness (.obj [("type", .str "t"), ("data", .obj [])])
      none rfl).2.mpr (by decide)
  · exact (c10_webhook_truthiness (.obj [("type", .str ""), ("data", .obj [])])
      none rfl).1.mpr (by decide)
  · exact (c10_webhook_truthiness
      (.obj [("type", .str "transcript"), ("data", .num 0)]) none rfl).1.mpr
      (by decide)
  · exact (c10_webhook_truthiness
      (.obj [("type", .str "t"), ("data", .bool false)]) none rfl).1.mpr
      (by decide)
  · exact (c10_webhook_truthiness (.obj [("type", .str "t"), ("data", .null)])
      none rfl).1.mpr (by decide)

/-- C7 counterexample: the payload with recognized type
`status-update` and a present (but falsy) `data` field `0` is rejected
with 400, although the claim allows 400 only for payloads missing
`type` or `data` and promises 200 for every recognized type. -/
theorem c7_counterexample :
    (webhook (.obj [("type", .str "status-update"), ("data", .num 0)]) none).1
        = 400 ∧
    (objLookup [("type", JsVal.str "status-update"), ("data", JsVal.num 0)]
        "type").isSome = true ∧
    (objLookup [("type", JsVal.str "status-update"), ("data", JsVal.num 0)]
        "data").isSome = true ∧
    webhookActionTag (.str "status-update") = "status-update" := by
  exact ⟨rfl, rfl, rfl, rfl⟩

/-- C7 as amended: the webhook handler rejects with 400 exactly the
payloads whose `type` or `data` field is absent or falsy; every payload
with truthy `type` and truthy `data` — recognized or not — is
acknowledged with 200 and a success body, and when the internal
processing raises, the handler still answers 200 with an
acknowledgement body carrying the error detail. -/
theorem c7_webhook_ack (p : JsVal) (perr : Option String)
    (hp : jsIsObjOrArr p = true) :
    (¬ (jsTruthy (jsGet p "type") = true ∧ jsTruthy (jsGet p "data") = true) →
      webhook p perr = (400, .obj [("success", .bool false),
        ("error", .str "Invalid webhook payload")])) ∧
    (jsTruthy (jsGet p "type") = true → jsTruthy (jsGet p "data") = true →
      webhook p none = (200, .obj [("success", .bool true)])) ∧
    (∀ e, jsTruthy (jsGet p "type") = true → jsTruthy (jsGet p "data") = true →
      webhook p (some e) = (200, .obj [("success", .bool false),
        ("error", .str e)])) := by
  have ht := jsGetE_of_objOrArr p "type" hp
  have hd := jsGetE_of_objOrArr p "data" hp
  refine ⟨?_, ?_, ?_⟩
  · intro h
    by_cases h1 : jsTruthy (jsGet p "type") = true <;>
      by_cases h2 : jsTruthy (jsGet p "data") = true <;>
        cases perr <;> simp_all [webhook]
  · intro h1 h2
    simp_all [webhook]
  · intro e h1 h2
    simp_all [webhook]

/-- C7 witness: an unrecognized truthy type is acknowledged with 200, a
recognized type whose processing raises is still answered 200 with the
error detail, and a payload missing `data` is rejected with 400. -/
theorem c7_witness :
    jsIsObjOrArr (JsVal.obj [("type", .str "weird"), ("data", .obj [])]) = true ∧
    webhook (.obj [("type", .str "weird"), ("data", .obj [])]) none
      = (200, .obj [("success", .bool true)]) ∧
    webhook (.obj [("type", .str "end-of-call-report"), ("data", .obj [])])
        (some "boom")
      = (200, .obj [("success", .bool false), ("error", .str "boom")]) ∧
    webhook (.obj [("type", .str "call-ended")]) none
      = (400, .obj [("success", .bool false),
          ("error", .str "Invalid webhook payload")]) := by
  refine ⟨rfl, ?_, ?_, ?_⟩
  · exact (c7_webhook_ack (.obj [("type", .str "weird"), ("data", .obj [])])
      none rfl).2.1 rfl rfl
  · exact (c7_webhook_ack
      (.obj [("type", .str "end-of-call-report"), ("data", .obj [])])
      (some "boom") rfl).2.2 "boom" rfl rfl
  · exact (c7_webhook_ack (.obj [("type", .str "call-ended")]) none rfl).1
      (by decide)

/-- Validation outcome of the `part_002` web-call response check,
expressed as one boolean conjunction: the chain of truthiness tests
never raises, because each member access happens on a receiver already
known to be truthy. -/
theorem webCallResultValid_eq (result : JsVal) :
    RevB.webCallResultValid result
      = .ok (jsTruthy result && (jsTruthy (jsGet result "id") &&
          (jsTruthy (jsGet result "transport") &&
            jsTruthy (jsGet (jsGet result "transport") "websocketCallUrl")))) := by
  unfold RevB.webCallResultValid
  by_cases h0 : jsTruthy result = true
  · simp only [if_pos h0, jsGetE_of_truthy result "id" h0,
      jsGetE_of_truthy result "transport" h0]
    by_cases h1 : jsTruthy (jsGet result "id") = true
    · by_cases h2 : jsTruthy (jsGet result "transport") = true
      · simp only [jsGetE_of_truthy (jsGet result "transport")
          "websocketCallUrl" h2]
        simp [h0, h1, h2]
      · simp [h0, h1, h2]
    · simp [h0, h1]
  · simp [h0]

/-- C1 counterexample: in the `server/vapi_integration.js` revision, a
successful (2xx) upstream response that is a bare empty object — so it
carries neither `id` nor `transport.websocketCallUrl` — is not rejected:
`createWebCall` resolves and hands the incomplete object (augmented only
with the public key) to its caller, whose `id` field is falsy. -/
theorem c1_counterexample :
    SrvRev.createWebCallRun
        (SrvRev.initState ⟨some "priv", some "pub", some "asst"⟩) none
        (.ok (.obj []))
      = .ok (.obj [("publicKey", .str "pub")]) ∧
    jsTruthy (jsGet (.obj [("publicKey", JsVal.str "pub")]) "id") = false := by
  exact ⟨rfl, rfl⟩

/-- C1 as amended: in the `part_002` revision, `createWebCall` applied
to a successful upstream exchange succeeds only when the result is
truthy with truthy `id`, truthy `transport` and truthy
`transport.websocketCallUrl`; any other successful upstream response is
rejected with the invalid-upstream-response error even though the HTTP
exchange succeeded, every object it returns carries truthy `id` and
`transport.websocketCallUrl`, and an upstream failure is propagated. -/
theorem c1_webcall_validation (s : VapiState) (caid : Option String)
    (tc : Option JsVal) (result : JsVal)
    (hinit : s.initialized = true)
    (hpriv : strTruthy s.cfg.privateKey = true) :
    (¬ (jsTruthy result = true ∧ jsTruthy (jsGet result "id") = true ∧
        jsTruthy (jsGet result "transport") = true ∧
        jsTruthy (jsGet (jsGet result "transport") "websocketCallUrl") = true) →
      RevB.createWebCallRun s caid tc (.ok result)
        = .error "Invalid response from Vapi API - missing required fields") ∧
    (∀ out, RevB.createWebCallRun s caid tc (.ok result) = .ok out →
      jsTruthy (jsGet out "id") = true ∧
      jsTruthy (jsGet (jsGet out "transport") "websocketCallUrl") = true) ∧
    (∀ e, RevB.createWebCallRun s caid tc (.error e) = .error e) := by
  have hreq : ∃ r, RevB.createWebCallReq s caid tc = .ok r := by
    simp [RevB.createWebCallReq, hinit, hpriv]
  obtain ⟨r, hr⟩ := hreq
  refine ⟨?_, ?_, ?_⟩
  · intro hbad
    simp only [RevB.createWebCallRun, hr, webCallResultValid_eq]
    have : (jsTruthy result && (jsTruthy (jsGet result "id") &&
        (jsTruthy (jsGet result "transport") &&
          jsTruthy (jsGet (jsGet result "transport") "websocketCallUrl"))))
        = false := by
      rcases Bool.eq_false_or_eq_true (jsTruthy result) with h|h <;>
        rcases Bool.eq_false_or_eq_true (jsTruthy (jsGet result "id")) with h1|h1 <;>
        rcases Bool.eq_false_or_eq_true (jsTruthy (jsGet result "transport")) with h2|h2 <;>
        rcases Bool.eq_false_or_eq_true
          (jsTruthy (jsGet (jsGet result "transport") "websocketCallUrl")) with h3|h3 <;>
        simp_all
    rw [this]
  · intro out hout
    simp only [RevB.createWebCallRun, hr, webCallResultValid_eq] at hout
    rcases hb : (jsTruthy result && (jsTruthy (jsGet result "id") &&
        (jsTruthy (jsGet result "transport") &&
          jsTruthy (jsGet (jsGet result "transport") "websocketCallUrl"))))
      with _|_
    · rw [hb] at hout; exact Except.noConfusion hout
    · rw [hb] at hout
      have hbs := hb
      simp only [Bool.and_eq_true] at hbs
      obtain ⟨ht0, ht1, ht2, ht3⟩ := hbs
      obtain ⟨fs, rfl⟩ := jsGet_truthy_obj result "id" ht1
      cases hout
      constructor
      · show jsTruthy (jsGet (.obj (objSet fs "publicKey"
          (optEnvJsv s.cfg.publicKey))) "id") = true
        have : objLookup (objSet fs "publicKey" (optEnvJsv s.cfg.publicKey)) "id"
            = objLookup fs "id" :=
          objLookup_objSet_ne fs "publicKey" (optEnvJsv s.cfg.publicKey) "id"
            (by decide)
        simpa [jsGet, jsSpreadFields, this] using ht1
      · show jsTruthy (jsGet (jsGet (.obj (objSet fs "publicKey"
          (optEnvJsv s.cfg.publicKey))) "transport") "websocketCallUrl") = true
        have : objLookup (objSet fs "publicKey" (optEnvJsv s.cfg.publicKey))
            "transport" = objLookup fs "transport" :=
          objLookup_objSet_ne fs "publicKey" (optEnvJsv s.cfg.publicKey)
            "transport" (by decide)
        simpa [jsGet, jsSpreadFields, this] using ht3
  · intro e
    simp [RevB.createWebCallRun, hr]

/-- C1 witness: in a configured `part_002` state, the empty upstream
object is rejected with the invalid-upstream-response error, and a
complete upstream result is returned with its `id` and websocket URL
intact. -/
theorem c1_witness :
    (RevB.initState ⟨some "priv", some "pub", some "asst"⟩).initialized
      = true ∧
    strTruthy
      (RevB.initState ⟨some "priv", some "pub", some "asst"⟩).cfg.privateKey
      = true ∧
    RevB.createWebCallRun (RevB.initState ⟨some "priv", some "pub", some "asst"⟩)
        none none (.ok (.obj []))
      = .error "Invalid response from Vapi API - missing required fields" ∧
    jsTruthy (jsGet (.obj [("id", JsVal.str "c"),
        ("transport", .obj [("websocketCallUrl", .str "wss://u")]),
        ("publicKey", .str "pub")]) "id") = true ∧
    jsTruthy (jsGet (jsGet (.obj [("id", JsVal.str "c"),
        ("transport", .obj [("websocketCallUrl", .str "wss://u")]),
        ("publicKey", .str "pub")]) "transport") "websocketCallUrl") = true := by
  refine ⟨rfl, rfl, ?_, ?_, ?_⟩
  · exact (c1_webcall_validation
      (RevB.initState ⟨some "priv", some "pub", some "asst"⟩) none none
      (.obj []) rfl rfl).1 (by decide)
  · exact ((c1_webcall_validation
      (RevB.initState ⟨some "priv", some "pub", some "asst"⟩) none none
      (.obj [("id", .str "c"),
        ("transport", .obj [("websocketCallUrl", .str "wss://u")])]) rfl rfl).2.1
      (.obj [("id", JsVal.str "c"),
        ("transport", .obj [("websocketCallUrl", .str "wss://u")]),
        ("publicKey", .str "pub")]) rfl).1
  · exact ((c1_webcall_validation
      (RevB.initState ⟨some "priv", some "pub", some "asst"⟩) none none
      (.obj [("id", .str "c"),
        ("transport", .obj [("websocketCallUrl", .str "wss://u")])]) rfl rfl).2.1
      (.obj [("id", JsVal.str "c"),
        ("transport", .obj [("websocketCallUrl", .str "wss://u")]),
        ("publicKey", .str "pub")]) rfl).2

/-- C2 counterexample: in a configured `part_002` state with private
key `privK` and public key `pubK`, the web-call request carries
`Bearer privK` — the private, not the public, credential — in its
Authorization header. -/
theorem c2_counterexample :
    RevB.createWebCallReq (RevB.initState ⟨some "privK", some "pubK", some "asst"⟩)
        none none
      = .ok ⟨⟨"https://api.vapi.ai", "/call", "POST",
          [("Authorization", "Bearer privK"),
           ("Content-Type", "application/json"),
           ("Accept", "application/json")]⟩,
          some (.obj [("assistantId", .str "asst"),
            ("transport", RevB.defaultTransport)])⟩ ∧
    ("Bearer privK" ≠ "Bearer pubK") := by
  exact ⟨rfl, by decide⟩

/-- C2 as amended: phone calls, call listing, single-call reads, call
ending and assistant read/update all carry the private credential in
the Authorization header, in both the `server/vapi_integration.js` and
`part_002` revisions; web-call creation in every revision is attempted
only when the private key is present, and its Authorization header
carries the public credential in the `server/vapi_integration.js` and
`part_001` revisions but the private credential in the `part_002`
revision. -/
theorem c2_key_usage (s : VapiState) (caid : Option String)
    (tc : Option JsVal) (p cid : String) (lim : Option Int) (upd : JsVal)
    (req : Request) :
    (SrvRev.createWebCallReq s caid = .ok req →
      req.auth = some (bearerOf s.cfg.publicKey)) ∧
    (RevA.createWebCallReq s caid = .ok req →
      req.auth = some (bearerOf s.cfg.publicKey)) ∧
    (RevB.createWebCallReq s caid tc = .ok req →
      req.auth = some (bearerOf s.cfg.privateKey)) ∧
    (strTruthy s.cfg.privateKey = false →
      SrvRev.createWebCallReq s caid = .error "Vapi private key not configured" ∧
      (s.initialized = true →
        RevA.createWebCallReq s caid = .error "Vapi private key not configured" ∧
        RevB.createWebCallReq s caid tc
          = .error "Vapi private key not configured")) ∧
    (SrvRev.makeCallReq s p caid = .ok req →
      req.auth = some (bearerOf s.cfg.privateKey)) ∧
    (SrvRev.getCallsReq s lim = .ok req →
      req.auth = some (bearerOf s.cfg.privateKey)) ∧
    (SrvRev.getCallReq s cid = .ok req →
      req.auth = some (bearerOf s.cfg.privateKey)) ∧
    (SrvRev.endCallReq s cid = .ok req →
      req.auth = some (bearerOf s.cfg.privateKey)) ∧
    (SrvRev.getAssistantReq s = .ok req →
      req.auth = some (bearerOf s.cfg.privateKey)) ∧
    (SrvRev.updateAssistantReq s upd = .ok req →
      req.auth = some (bearerOf s.cfg.privateKey)) ∧
    (RevB.makeCallReq s p caid = .ok req →
      req.auth = some (bearerOf s.cfg.privateKey)) ∧
    (RevB.getCallsReq s lim = .ok req →
      req.auth = some (bearerOf s.cfg.privateKey)) ∧
    (RevB.getCallReq s cid = .ok req →
      req.auth = some (bearerOf s.cfg.privateKey)) ∧
    (RevB.endCallReq s cid = .ok req →
      req.auth = some (bearerOf s.cfg.privateKey)) ∧
    (RevB.getAssistantReq s = .ok req →
      req.auth = some (bearerOf s.cfg.privateKey)) ∧
    (RevB.updateAssistantReq s upd = .ok req →
      req.auth = some (bearerOf s.cfg.privateKey)) := by
  refine ⟨?_, ?_, ?_, ?_, ?_, ?_, ?_, ?_, ?_, ?_, ?_, ?_, ?_, ?_, ?_, ?_⟩
  case _ =>
    intro h
    unfold SrvRev.createWebCallReq at h
    repeat' split at h
    all_goals first
    | exact Except.noConfusion h
    | (cases h; rfl)
  case _ =>
    intro h
    unfold RevA.createWebCallReq at h
    repeat' split at h
    all_goals first
    | exact Except.noConfusion h
    | (cases h; rfl)
  case _ =>
    intro h
    unfold RevB.createWebCallReq at h
    repeat' split at h
    all_goals first
    | exact Except.noConfusion h
    | (cases h; rfl)
  case _ =>
    intro h
    refine ⟨by simp [SrvRev.createWebCallReq, h],
      fun hi => ⟨by simp [RevA.createWebCallReq, h, hi],
        by simp [RevB.createWebCallReq, h, hi]⟩⟩
  case _ =>
    intro h
    simp only [SrvRev.makeCallReq] at h
    repeat' split at h
    all_goals first
    | exact Except.noConfusion h
    | (cases h; rfl)
  case _ =>
    intro h
    unfold SrvRev.getCallsReq at h
    repeat' split at h
    all_goals first
    | exact Except.noConfusion h
    | (cases h; rfl)
  case _ =>
    intro h
    unfold SrvRev.getCallReq at h
    repeat' split at h
    all_goals first
    | exact Except.noConfusion h
    | (cases h; rfl)
  case _ =>
    intro h
    unfold SrvRev.endCallReq at h
    repeat' split at h
    all_goals first
    | exact Except.noConfusion h
    | (cases h; rfl)
  case _ =>
    intro h
    unfold SrvRev.getAssistantReq at h
    repeat' split at h
    all_goals first
    | exact Except.noConfusion h
    | (cases h; rfl)
  case _ =>
    intro h
    unfold SrvRev.updateAssistantReq at h
    repeat' split at h
    all_goals first
    | exact Except.noConfusion h
    | (cases h; rfl)
  case _ =>
    intro h
    simp only [RevB.makeCallReq] at h
    repeat' split at h
    all_goals first
    | exact Except.noConfusion h
    | (cases h; rfl)
  case _ =>
    intro h
    unfold RevB.getCallsReq at h
    repeat' split at h
    all_goals first
    | exact Except.noConfusion h
    | (cases h; rfl)
  case _ =>
    intro h
    unfold RevB.getCallReq at h
    repeat' split at h
    all_goals first
    | exact Except.noConfusion h
    | (cases h; rfl)
  case _ =>
    intro h
    unfold RevB.endCallReq at h
    repeat' split at h
    all_goals first
    | exact Except.noConfusion h
    | (cases h; rfl)
  case _ =>
    intro h
    unfold RevB.getAssistantReq at h
    repeat' split at h
    all_goals first
    | exact Except.noConfusion h
    | (cases h; rfl)
  case _ =>
    intro h
    unfold RevB.updateAssistantReq at h
    repeat' split at h
    all_goals first
    | exact Except.noConfusion h
    | (cases h; rfl)

/-- C2 witness: in a fully configured state, the web-call request of
the `server/vapi_integration.js` revision carries the public-key
bearer, the call-listing request of the `part_002` revision carries the
private-key bearer, and with the private key absent, web-call creation
is not attempted. -/
theorem c2_witness :
    SrvRev.createWebCallReq (RevB.initState ⟨some "priv", some "pub", some "asst"⟩)
        none
      = .ok ⟨⟨"api.vapi.ai", "/call/web", "POST",
          [("Authorization", "Bearer pub"),
           ("Content-Type", "application/json")]⟩,
          some (.obj [("assistantId", .str "asst")])⟩ ∧
    Request.auth ⟨⟨"api.vapi.ai", "/call/web", "POST",
        [("Authorization", "Bearer pub"), ("Content-Type", "application/json")]⟩,
        some (.obj [("assistantId", .str "asst")])⟩ = some "Bearer pub" ∧
    RevB.getCallsReq (RevB.initState ⟨some "priv", some "pub", some "asst"⟩)
        (some 5)
      = .ok ⟨⟨"https://api.vapi.ai", "/call?limit=5", "GET",
          [("Authorization", "Bearer priv"),
           ("Content-Type", "application/json")]⟩, none⟩ ∧
    Request.auth ⟨⟨"https://api.vapi.ai", "/call?limit=5", "GET",
        [("Authorization", "Bearer priv"),
         ("Content-Type", "application/json")]⟩, none⟩ = some "Bearer priv" ∧
    strTruthy (VapiConfig.mk none (some "pub") (some "asst")).privateKey
      = false ∧
    SrvRev.createWebCallReq ⟨⟨none, some "pub", some "asst"⟩, false⟩ none
      = .error "Vapi private key not configured" := by
  refine ⟨rfl, ?_, rfl, ?_, rfl, ?_⟩
  · exact (c2_key_usage (RevB.initState ⟨some "priv", some "pub", some "asst"⟩)
      none none "p" "c" (some 5) (.obj [])
      ⟨⟨"api.vapi.ai", "/call/web", "POST",
        [("Authorization", "Bearer pub"), ("Content-Type", "application/json")]⟩,
        some (.obj [("assistantId", .str "asst")])⟩).1 rfl
  · exact (c2_key_usage (RevB.initState ⟨some "priv", some "pub", some "asst"⟩)
      none none "p" "c" (some 5) (.obj [])
      ⟨⟨"https://api.vapi.ai", "/call?limit=5", "GET",
        [("Authorization", "Bearer priv"),
         ("Content-Type", "application/json")]⟩, none⟩).2.2.2.2.2.2.2.2.2.2.2.1
      rfl
  · exact ((c2_key_usage ⟨⟨none, some "pub", some "asst"⟩, false⟩
      none none "p" "c" (some 5) (.obj [])
      ⟨⟨"", "", "", []⟩, none⟩).2.2.2.1 rfl).1

/-- C3 counterexample: on the empty input string, `makeCall` rejects
with the missing-phone-number error, not the format error the claim
promises for every non-matching input string. -/
theorem c3_counterexample :
    SrvRev.makeCallReq (SrvRev.initState ⟨some "k", some "p", some "a"⟩) "" none
      = .error "Phone number is required" ∧
    ("Phone number is required"
      ≠ "Invalid phone number format. Use international format (+1234567890)") := by
  exact ⟨rfl, by decide⟩

/-- C3 as amended: with the API key present, `makeCall` on every
non-empty input string strips whitespace, hyphens and parentheses,
matches the result against the phone pattern, proceeds to the network
request with the plus-normalized customer number on a match, and
rejects with the format error before any network call on a non-match;
the empty string is rejected earlier with the missing-phone-number
error, also before any network call. -/
theorem c3_phone_validation (s : VapiState) (caid : Option String)
    (p : String) (hkey : strTruthy s.cfg.apiKey = true) :
    (p ≠ "" → phoneRegexTest (cleanPhone p) = true →
      SrvRev.makeCallReq s p caid
        = .ok ⟨⟨SrvRev.baseUrl, "/call/phone", "POST",
            [("Authorization", bearerOf s.cfg.apiKey),
             ("Content-Type", "application/json")]⟩,
            some (.obj
              [("assistantId",
                 jsvOr (optArgJsv caid) (optEnvJsv s.cfg.assistantId)),
               ("phoneNumberId", .null),
               ("customer",
                 .obj [("number", .str (normalizePhone (cleanPhone p)))])])⟩) ∧
    (p ≠ "" → phoneRegexTest (cleanPhone p) = false →
      SrvRev.makeCallReq s p caid
        = .error "Invalid phone number format. Use international format (+1234567890)") ∧
    SrvRev.makeCallReq s "" caid = .error "Phone number is required" ∧
    (s.initialized = true → p ≠ "" → phoneRegexTest (cleanPhone p) = true →
      RevB.makeCallReq s p caid
        = .ok ⟨⟨RevB.baseUrl, "/call/phone", "POST",
            [("Authorization", bearerOf s.cfg.apiKey),
             ("Content-Type", "application/json")]⟩,
            some (.obj
              [("assistantId",
                 jsvOr (optArgJsv caid) (optEnvJsv s.cfg.assistantId)),
               ("phoneNumberId", .null),
               ("customer",
                 .obj [("number", .str (normalizePhone (cleanPhone p)))])])⟩) ∧
    (s.initialized = true → p ≠ "" → phoneRegexTest (cleanPhone p) = false →
      RevB.makeCallReq s p caid
        = .error "Invalid phone number format. Use international format (+1234567890)") ∧
    (s.initialized = true →
      RevB.makeCallReq s "" caid = .error "Phone number is required") := by
  refine ⟨?_, ?_, ?_, ?_, ?_, ?_⟩
  · intro hp hreg
    simp [SrvRev.makeCallReq, hkey, hp, hreg]
  · intro hp hreg
    simp [SrvRev.makeCallReq, hkey, hp, hreg]
  · simp [SrvRev.makeCallReq, hkey]
  · intro hi hp hreg
    simp [RevB.makeCallReq, hi, hkey, hp, hreg]
  · intro hi hp hreg
    simp [RevB.makeCallReq, hi, hkey, hp, hreg]
  · intro hi
    simp [RevB.makeCallReq, hi, hkey]

/-- C3 witness: the example input `"(555) 123-4567"` cleans to
`"5551234567"`, matches the pattern, and proceeds with the normalized
number `"+5551234567"`; the non-matching input `"12"` is rejected with
the format error. -/
theorem c3_witness :
    strTruthy (SrvRev.initState ⟨some "k", some "p", some "a"⟩).cfg.apiKey
      = true ∧
    cleanPhone "(555) 123-4567" = "5551234567" ∧
    phoneRegexTest "5551234567" = true ∧
    normalizePhone "5551234567" = "+5551234567" ∧
    SrvRev.makeCallReq (SrvRev.initState ⟨some "k", some "p", some "a"⟩)
        "(555) 123-4567" none
      = .ok ⟨⟨SrvRev.baseUrl, "/call/phone", "POST",
          [("Authorization", bearerOf (some "k")),
           ("Content-Type", "application/json")]⟩,
          some (.obj
            [("assistantId", jsvOr (optArgJsv none) (optEnvJsv (some "a"))),
             ("phoneNumberId", .null),
             ("customer",
               .obj [("number", .str (normalizePhone (cleanPhone "(555) 123-4567")))])])⟩ ∧
    SrvRev.makeCallReq (SrvRev.initState ⟨some "k", some "p", some "a"⟩)
        "12" none
      = .error "Invalid phone number format. Use international format (+1234567890)" := by
  refine ⟨rfl, rfl, rfl, rfl, ?_, ?_⟩
  · exact (c3_phone_validation (SrvRev.initState ⟨some "k", some "p", some "a"⟩)
      none "(555) 123-4567" rfl).1 (by decide) rfl
  · exact (c3_phone_validation (SrvRev.initState ⟨some "k", some "p", some "a"⟩)
      none "12" rfl).2.1 (by decide) rfl

/-- C4 counterexample: a state with the private key present but the
public key absent is not initialized, yet `makeCall` in the
`server/vapi_integration.js` revision still constructs the upstream
request — the operation reaches the network while the gateway is
uninitialized. -/
theorem c4_counterexample :
    (SrvRev.initState ⟨some "k", none, some "a"⟩).initialized = false ∧
    SrvRev.makeCallReq (SrvRev.initState ⟨some "k", none, some "a"⟩)
        "+123456789" none
      = .ok ⟨⟨"api.vapi.ai", "/call/phone", "POST",
          [("Authorization", "Bearer k"), ("Content-Type", "application/json")]⟩,
          some (.obj [("assistantId", .str "a"), ("phoneNumberId", .null),
            ("customer", .obj [("number", .str "+123456789")])])⟩ := by
  exact ⟨rfl, rfl⟩

/-- C4 as amended: in the `part_002` revision (and for the cited
`part_001` operations), every gateway operation re-checks
initialization and fails with the not-initialized configuration error
before constructing any request whenever the gateway is uninitialized. -/
theorem c4_init_gating (s : VapiState) (caid : Option String)
    (tc : Option JsVal) (p cid : String) (lim : Option Int) (upd : JsVal)
    (h : s.initialized = false) :
    RevB.getAssistantReq s
      = .error "VapiService not initialized. Please check configuration." ∧
    RevB.makeCallReq s p caid
      = .error "VapiService not initialized. Please check configuration." ∧
    RevB.createWebCallReq s caid tc
      = .error "VapiService not initialized. Please check configuration." ∧
    RevB.getCallsReq s lim
      = .error "VapiService not initialized. Please check configuration." ∧
    RevB.getCallReq s cid
      = .error "VapiService not initialized. Please check configuration." ∧
    RevB.endCallReq s cid
      = .error "VapiService not initialized. Please check configuration." ∧
    RevB.updateAssistantReq s upd
      = .error "VapiService not initialized. Please check configuration." ∧
    RevA.getAssistantReq s
      = .error "VapiService not initialized. Please check configuration." ∧
    RevA.createWebCallReq s caid
      = .error "VapiService not initialized. Please check configuration." := by
  refine ⟨?_, ?_, ?_, ?_, ?_, ?_, ?_, ?_, ?_⟩ <;>
    simp [RevB.getAssistantReq, RevB.makeCallReq, RevB.createWebCallReq,
      RevB.getCallsReq, RevB.getCallReq, RevB.endCallReq,
      RevB.updateAssistantReq, RevA.getAssistantReq, RevA.createWebCallReq, h]

/-- C4 witness: the `part_002` constructor leaves the gateway
uninitialized when the public key is missing, and `makeCall` then fails
with the not-initialized configuration error instead of constructing a
request. -/
theorem c4_witness :
    (RevB.initState ⟨some "k", none, some "a"⟩).initialized = false ∧
    RevB.makeCallReq (RevB.initState ⟨some "k", none, some "a"⟩)
        "+123456789" none
      = .error "VapiService not initialized. Please check configuration." ∧
    RevB.createWebCallReq (RevB.initState ⟨some "k", none, some "a"⟩) none none
      = .error "VapiService not initialized. Please check configuration." := by
  refine ⟨rfl, ?_, ?_⟩
  · exact (c4_init_gating (RevB.initState ⟨some "k", none, some "a"⟩)
      none none "+123456789" "c" none (.obj []) rfl).2.1
  · exact (c4_init_gating (RevB.initState ⟨some "k", none, some "a"⟩)
      none none "+123456789" "c" none (.obj []) rfl).2.2.1

/-- C5 counterexample: in the `server/vapi_integration.js` revision,
the health check of an uninitialized gateway reports status
`initializing`, not the `not_configured` the claim requires. -/
theorem c5_counterexample :
    (SrvRev.initState ⟨some "k", none, some "a"⟩).initialized = false ∧
    jsTemplate (jsGet (SrvRev.healthCheck
        (SrvRev.initState ⟨some "k", none, some "a"⟩) (.ok (.obj []))) "status")
      = "initializing" ∧
    ("initializing" ≠ "not_configured") := by
  exact ⟨rfl, rfl, by decide⟩

/-- C5 as amended: the health check is a total function; in the
`part_001`/`part_002` revisions an uninitialized gateway yields the
`not_configured` object without consulting the upstream (the result is
the same for every upstream outcome), while the
`server/vapi_integration.js` revision yields status `initializing` in
that case, likewise without consulting the upstream; when initialized,
in every revision (`part_002`, `part_001` and
`server/vapi_integration.js` alike) the result is `healthy` with the
assistant id and name exactly when `getAssistant` succeeds, and any
failure is caught and reported as status `error` carrying the
failure's message. -/
theorem c5_health_check (s : VapiState) (u : Except String JsVal) :
    (s.initialized = false →
      RevB.healthCheck s u
        = .obj [("status", .str "not_configured"),
            ("message",
              .str "Vapi service not initialized. Please check environment variables.")] ∧
      (∀ u2, RevB.healthCheck s u = RevB.healthCheck s u2) ∧
      jsTemplate (jsGet (SrvRev.healthCheck s u) "status") = "initializing" ∧
      (∀ u2, SrvRev.healthCheck s u = SrvRev.healthCheck s u2)) ∧
    (s.initialized = true → ∀ a, RevB.getAssistantRun s u = .ok a →
      RevB.healthCheck s u
        = .obj [("status", .str "healthy"),
            ("apiKeyPresent", .bool (strTruthy s.cfg.apiKey)),
            ("assistantId", optEnvJsv s.cfg.assistantId),
            ("assistantName",
              if jsTruthy (jsGet a "name") = true then jsGet a "name"
              else .str "Unknown")]) ∧
    (s.initialized = true → ∀ e, RevB.getAssistantRun s u = .error e →
      RevB.healthCheck s u
        = .obj [("status", .str "error"), ("message", .str e)]) ∧
    (jsTemplate (jsGet (RevB.healthCheck s u) "status") = "healthy" ↔
      (s.initialized = true ∧ ∃ a, RevB.getAssistantRun s u = .ok a)) ∧
    (s.initialized = false →
      RevA.healthCheck s u
        = .obj [("status", .str "not_configured"),
            ("message",
              .str "Vapi service not initialized. Please check environment variables.")] ∧
      (∀ u2, RevA.healthCheck s u = RevA.healthCheck s u2)) ∧
    (s.initialized = true → ∀ a, RevA.getAssistantRun s u = .ok a →
      RevA.healthCheck s u
        = .obj [("status", .str "healthy"),
            ("apiKeyPresent", .bool (strTruthy s.cfg.apiKey)),
            ("assistantId", optEnvJsv s.cfg.assistantId),
            ("assistantName",
              if jsTruthy (jsGet a "name") = true then jsGet a "name"
              else .str "Unknown")]) ∧
    (s.initialized = true → ∀ e, RevA.getAssistantRun s u = .error e →
      RevA.healthCheck s u
        = .obj [("status", .str "error"), ("message", .str e)]) ∧
    (s.initialized = true → ∀ a, SrvRev.getAssistantRun s u = .ok a →
      SrvRev.healthCheck s u
        = .obj [("status", .str "healthy"),
            ("apiKeyPresent", .bool (strTruthy s.cfg.apiKey)),
            ("assistantId", optEnvJsv s.cfg.assistantId),
            ("assistantName",
              if jsTruthy (jsGet a "name") = true then jsGet a "name"
              else .str "Unknown")]) ∧
    (s.initialized = true → ∀ e, SrvRev.getAssistantRun s u = .error e →
      SrvRev.healthCheck s u
        = .obj [("status", .str "error"), ("message", .str e)]) ∧
    (jsTemplate (jsGet (SrvRev.healthCheck s u) "status") = "healthy" ↔
      (s.initialized = true ∧ ∃ a, SrvRev.getAssistantRun s u = .ok a)) := by
  refine ⟨?_, ?_, ?_, ?_, ?_, ?_, ?_, ?_, ?_, ?_⟩
  · intro h
    refine ⟨by simp [RevB.healthCheck, h], fun u2 => by simp [RevB.healthCheck, h],
      by simp [SrvRev.healthCheck, h, jsGet, objLookup, jsTemplate],
      fun u2 => by simp [SrvRev.healthCheck, h]⟩
  · intro h a ha
    simp [RevB.healthCheck, h, ha]
  · intro h e he
    simp [RevB.healthCheck, h, he]
  · rcases hb : s.initialized with _|_
    · simp [RevB.healthCheck, hb, jsGet, objLookup, jsTemplate]
    · rcases hga : RevB.getAssistantRun s u with e|a
      · simp [RevB.healthCheck, hb, hga, jsGet, objLookup, jsTemplate]
      · simp [RevB.healthCheck, hb, hga, jsGet, objLookup, jsTemplate]
  · intro h
    exact ⟨by simp [RevA.healthCheck, h],
      fun u2 => by simp [RevA.healthCheck, h]⟩
  · intro h a ha
    simp [RevA.healthCheck, h, ha]
  · intro h e he
    simp [RevA.healthCheck, h, he]
  · intro h a ha
    simp [SrvRev.healthCheck, h, ha]
  · intro h e he
    simp [SrvRev.healthCheck, h, he]
  · rcases hb : s.initialized with _|_
    · simp [SrvRev.healthCheck, hb, jsGet, objLookup, jsTemplate]
    · rcases hga : SrvRev.getAssistantRun s u with e|a
      · simp [SrvRev.healthCheck, hb, hga, jsGet, objLookup, jsTemplate]
      · simp [SrvRev.healthCheck, hb, hga, jsGet, objLookup, jsTemplate]

/-- C5 witness: a concrete uninitialized `part_002` state yields
`not_configured` for two different upstream outcomes, and a concrete
initialized state yields `healthy` on success and `error` with the
message on failure. -/
theorem c5_witness :
    (RevB.initState ⟨none, none, none⟩).initialized = false ∧
    RevB.healthCheck (RevB.initState ⟨none, none, none⟩) (.error "down")
      = .obj [("status", .str "not_configured"),
          ("message",
            .str "Vapi service not initialized. Please check environment variables.")] ∧
    RevB.healthCheck (RevB.initState ⟨none, none, none⟩) (.error "down")
      = RevB.healthCheck (RevB.initState ⟨none, none, none⟩) (.ok (.obj [])) ∧
    (RevB.initState ⟨some "k", some "p", some "a"⟩).initialized = true ∧
    RevB.getAssistantRun (RevB.initState ⟨some "k", some "p", some "a"⟩)
        (.ok (.obj [("name", .str "Riley")]))
      = .ok (.obj [("name", .str "Riley")]) ∧
    RevB.healthCheck (RevB.initState ⟨some "k", some "p", some "a"⟩)
        (.ok (.obj [("name", .str "Riley")]))
      = .obj [("status", .str "healthy"),
          ("apiKeyPresent", .bool true),
          ("assistantId", .str "a"),
          ("assistantName", .str "Riley")] ∧
    RevB.healthCheck (RevB.initState ⟨some "k", some "p", some "a"⟩)
        (.error "API Error: 500 - x")
      = .obj [("status", .str "error"), ("message", .str "API Error: 500 - x")] ∧
    (SrvRev.initState ⟨some "k", some "p", some "a"⟩).initialized = true ∧
    SrvRev.getAssistantRun (SrvRev.initState ⟨some "k", some "p", some "a"⟩)
        (.ok (.obj [("name", .str "Riley")]))
      = .ok (.obj [("name", .str "Riley")]) ∧
    SrvRev.healthCheck (SrvRev.initState ⟨some "k", some "p", some "a"⟩)
        (.ok (.obj [("name", .str "Riley")]))
      = .obj [("status", .str "healthy"),
          ("apiKeyPresent", .bool true),
          ("assistantId", .str "a"),
          ("assistantName", .str "Riley")] ∧
    SrvRev.healthCheck (SrvRev.initState ⟨some "k", some "p", some "a"⟩)
        (.error "API Error: 500 - x")
      = .obj [("status", .str "error"), ("message", .str "API Error: 500 - x")] := by
  refine ⟨rfl, ?_, ?_, rfl, rfl, ?_, ?_, rfl, rfl, ?_, ?_⟩
  · exact ((c5_health_check (RevB.initState ⟨none, none, none⟩)
      (.error "down")).1 rfl).1
  · exact ((c5_health_check (RevB.initState ⟨none, none, none⟩)
      (.error "down")).1 rfl).2.1 (.ok (.obj []))
  · exact (c5_health_check (RevB.initState ⟨some "k", some "p", some "a"⟩)
      (.ok (.obj [("name", .str "Riley")]))).2.1 rfl
      (.obj [("name", .str "Riley")]) rfl
  · exact (c5_health_check (RevB.initState ⟨some "k", some "p", some "a"⟩)
      (.error "API Error: 500 - x")).2.2.1 rfl "API Error: 500 - x" rfl
  · exact (c5_health_check (SrvRev.initState ⟨some "k", some "p", some "a"⟩)
      (.ok (.obj [("name", .str "Riley")]))).2.2.2.2.2.2.2.1 rfl
      (.obj [("name", .str "Riley")]) rfl
  · exact (c5_health_check (SrvRev.initState ⟨some "k", some "p", some "a"⟩)
      (.error "API Error: 500 - x")).2.2.2.2.2.2.2.2.1 rfl
      "API Error: 500 - x" rfl

/-- C6 counterexample: a non-2xx response whose body is not parseable
is rejected as a parse failure that does not carry the status code,
while the claim requires every non-2xx outcome to resolve to a failure
carrying the status code and the message or body. -/
theorem c6_counterexample :
    RevB.makeRequest 500 "oops" (fun _ => .error "Unexpected token o in JSON")
      = .error "Parse Error: Unexpected token o in JSON" ∧
    ("Parse Error: Unexpected token o in JSON" ≠ "API Error: 500 - oops") := by
  exact ⟨rfl, by decide⟩

/-- C6 as amended: the `part_002` transport client resolves an empty
2xx body to the empty object and rejects an empty non-2xx body with
only the status code; a parseable non-empty body resolves to the parsed
payload on 2xx and, when the payload is not nullish, rejects on non-2xx
with the status code and the upstream message field or the raw body
text; a non-parseable body is rejected as a distinct parse failure
regardless of the status; and the `server/vapi_integration.js`
revision, lacking the empty-body case, reports an empty body as a parse
failure. -/
theorem c6_transport_classification (status : Nat) (body : String)
    (parse : String → Except String JsVal) (v : JsVal) (e : String) :
    (body = "" → 200 ≤ status → status < 300 →
      RevB.makeRequest status body parse = .ok (.obj [])) ∧
    (body = "" → ¬ (200 ≤ status ∧ status < 300) →
      RevB.makeRequest status body parse
        = .error ("API Error: " ++ toString status)) ∧
    (body ≠ "" → parse body = .ok v → 200 ≤ status → status < 300 →
      RevB.makeRequest status body parse = .ok v) ∧
    (body ≠ "" → parse body = .ok v → ¬ (200 ≤ status ∧ status < 300) →
      v ≠ .null → v ≠ .undefined →
      RevB.makeRequest status body parse
        = .error ("API Error: " ++ toString status ++ " - " ++
            (if jsTruthy (jsGet v "message") = true
             then jsTemplate (jsGet v "message") else body))) ∧
    (body ≠ "" → parse body = .error e →
      RevB.makeRequest status body parse = .error ("Parse Error: " ++ e)) ∧
    (parse body = .error e →
      SrvRev.makeRequest status body parse = .error ("Parse Error: " ++ e)) := by
  refine ⟨?_, ?_, ?_, ?_, ?_, ?_⟩
  · intro h h1 h2
    simp [RevB.makeRequest, h, h1, h2]
  · intro h h1
    simp [RevB.makeRequest, h, h1]
  · intro h hp h1 h2
    simp [RevB.makeRequest, h, hp, h1, h2]
  · intro h hp h1 hn hu
    simp [RevB.makeRequest, h, hp, h1, jsGetE_of_ne v "message" hn hu]
  · intro h hp
    simp [RevB.makeRequest, h, hp]
  · intro hp
    simp [SrvRev.makeRequest, hp]

/-- C6 witness: concrete classifications — an empty 204 body resolves
to the empty object, an empty 404 body fails with only the status, a
parsed 200 payload is resolved, a parsed 404 payload fails with status
and upstream message, a 201 parse failure is a parse error, and the
`server/vapi_integration.js` revision turns an empty 200 body into a
parse failure. -/
theorem c6_witness :
    RevB.makeRequest 204 "" (fun _ => .error "Unexpected end of JSON input")
      = .ok (.obj []) ∧
    RevB.makeRequest 404 "" (fun _ => .error "Unexpected end of JSON input")
      = .error "API Error: 404" ∧
    RevB.makeRequest 200 "1" (fun _ => .ok (.num 1)) = .ok (.num 1) ∧
    RevB.makeRequest 404 "\x7b\x7d" (fun _ => .ok (.obj [("message", .str "nope")]))
      = .error "API Error: 404 - nope" ∧
    RevB.makeRequest 201 "x" (fun _ => .error "bad") = .error "Parse Error: bad" ∧
    SrvRev.makeRequest 200 "" (fun _ => .error "Unexpected end of JSON input")
      = .error "Parse Error: Unexpected end of JSON input" := by
  refine ⟨?_, ?_, ?_, ?_, ?_, ?_⟩
  · exact (c6_transport_classification 204 ""
      (fun _ => .error "Unexpected end of JSON input") (.obj []) "").1
      rfl (by decide) (by decide)
  · exact (c6_transport_classification 404 ""
      (fun _ => .error "Unexpected end of JSON input") (.obj []) "").2.1
      rfl (by decide)
  · exact (c6_transport_classification 200 "1" (fun _ => .ok (.num 1))
      (.num 1) "").2.2.1 (by decide) rfl (by decide) (by decide)
  · exact (c6_transport_classification 404 "{}"
      (fun _ => .ok (.obj [("message", .str "nope")]))
      (.obj [("message", .str "nope")]) "").2.2.2.1 (by decide) rfl (by decide)
      (fun h => JsVal.noConfusion h) (fun h => JsVal.noConfusion h)
  · exact (c6_transport_classification 201 "x" (fun _ => .error "bad")
      (.obj []) "bad").2.2.2.2.1 (by decide) rfl
  · exact (c6_transport_classification 200 ""
      (fun _ => .error "Unexpected end of JSON input") (.obj [])
      "Unexpected end of JSON input").2.2.2.2.2 rfl

/-- Decimal digit characters produced by `Nat.digitChar` below base
ten. -/
theorem digitChar_isDigit (m : Nat) (h : m < 10) :
    (Nat.digitChar m).isDigit = true := by
  interval_cases m <;> decide

/-- Every character accumulated by the base-ten digit printer is a
decimal digit. -/
theorem toDigitsCore_digits :
    ∀ (fuel n : Nat) (acc : List Char),
      (∀ c ∈ acc, c.isDigit = true) →
      ∀ c ∈ Nat.toDigitsCore 10 fuel n acc, c.isDigit = true := by
  intro fuel
  induction fuel with
  | zero =>
    intro n acc hacc c hc
    simp only [Nat.toDigitsCore] at hc
    exact hacc c hc
  | succ f ih =>
    intro n acc hacc c hc
    simp only [Nat.toDigitsCore] at hc
    by_cases h : n / 10 = 0
    · rw [if_pos h] at hc
      rcases List.mem_cons.mp hc with h1 | h1
      · subst h1
        exact digitChar_isDigit _ (Nat.mod_lt _ (by norm_num))
      · exact hacc c h1
    · rw [if_neg h] at hc
      refine ih (n / 10) _ ?_ c hc
      intro c2 hc2
      rcases List.mem_cons.mp hc2 with h1 | h1
      · subst h1
        exact digitChar_isDigit _ (Nat.mod_lt _ (by norm_num))
      · exact hacc c2 h1

/-- Every character of a printed natural number is a decimal digit. -/
theorem natRepr_digits (n : Nat) :
    ∀ c ∈ (Nat.repr n).data, c.isDigit = true := by
  intro c hc
  have h : (Nat.repr n).data = Nat.toDigitsCore 10 (n + 1) n [] := rfl
  rw [h] at hc
  exact toDigitsCore_digits (n + 1) n [] (by simp) c hc

/-- Every character of a printed integer is a decimal digit or the
minus sign. -/
theorem intRepr_chars (i : Int) :
    ∀ c ∈ (Int.repr i).data, c.isDigit = true ∨ c = '-' := by
  intro c hc
  cases i with
  | ofNat m => exact Or.inl (natRepr_digits m c hc)
  | negSucc m =>
    rw [show Int.repr (.negSucc m) = "-" ++ Nat.repr (m + 1) from rfl,
      String.data_append] at hc
    rcases List.mem_append.mp hc with h | h
    · right
      simpa using h
    · exact Or.inl (natRepr_digits (m + 1) c h)

/-- The upstream call-listing path never mentions an `offset`
parameter, whatever the interpolated limit: none of its characters is
the letter `f`. -/
theorem not_contains_offset (l : Int) :
    ¬ strContainsSub ("/call?limit=" ++ toString l) "offset" := by
  rintro ⟨pre, post, h⟩
  have hf : 'f' ∈ ("/call?limit=" ++ toString l).data := by
    rw [h, String.data_append, String.data_append]
    exact List.mem_append.mpr (Or.inl (List.mem_append.mpr (Or.inr (by decide))))
  rw [String.data_append] at hf
  rcases List.mem_append.mp hf with h1 | h1
  · exact absurd h1 (by decide)
  · have he : toString l = Int.repr l := rfl
    rw [he] at h1
    rcases intRepr_chars l 'f' h1 with hd | hd
    · exact absurd hd (by decide)
    · exact absurd hd (by decide)

/-- C9 (confirmed): the call-listing route accepts an `offset` query
value and passes it to `getCalls`, but `getCalls` declares only a
`limit` parameter (default 100), so the upstream request path carries
only the limit and never an `offset` parameter, for every value of
`offset`. -/
theorem c9_offset_not_forwarded (s : VapiState) (limitQ offsetQ : Option Int)
    (req : Request) :
    callsRoute s limitQ offsetQ = SrvRev.getCallsReq s (some (limitQ.getD 50)) ∧
    (SrvRev.getCallsReq s (some (limitQ.getD 50)) = .ok req →
      req.options.path = "/call?limit=" ++ toString (limitQ.getD 50) ∧
      ¬ strContainsSub req.options.path "offset") ∧
    (SrvRev.getCallsReq s none = .ok req →
      req.options.path = "/call?limit=100" ∧
      ¬ strContainsSub req.options.path "offset") := by
  refine ⟨rfl, ?_, ?_⟩
  · intro h
    unfold SrvRev.getCallsReq at h
    split at h
    · cases h
      exact ⟨rfl, not_contains_offset (limitQ.getD 50)⟩
    · exact Except.noConfusion h
  · intro h
    unfold SrvRev.getCallsReq at h
    split at h
    · cases h
      exact ⟨rfl, not_contains_offset 100⟩
    · exact Except.noConfusion h

/-- C9 witness: with limit 10 and offset 7 the route forwards only
`limit=10`, and with no limit the default path is `limit=100`; neither
path contains an `offset` parameter. -/
theorem c9_witness :
    callsRoute (SrvRev.initState ⟨some "k", some "p", some "a"⟩)
        (some 10) (some 7)
      = SrvRev.getCallsReq (SrvRev.initState ⟨some "k", some "p", some "a"⟩)
          (some 10) ∧
    SrvRev.getCallsReq (SrvRev.initState ⟨some "k", some "p", some "a"⟩)
        (some 10)
      = .ok ⟨⟨"api.vapi.ai", "/call?limit=10", "GET",
          [("Authorization", "Bearer k"),
           ("Content-Type", "application/json")]⟩, none⟩ ∧
    ("/call?limit=10" = "/call?limit=" ++ toString ((10 : Int))) ∧
    ¬ strContainsSub "/call?limit=10" "offset" ∧
    SrvRev.getCallsReq (SrvRev.initState ⟨some "k", some "p", some "a"⟩) none
      = .ok ⟨⟨"api.vapi.ai", "/call?limit=100", "GET",
          [("Authorization", "Bearer k"),
           ("Content-Type", "application/json")]⟩, none⟩ ∧
    ¬ strContainsSub "/call?limit=100" "offset" := by
  refine ⟨?_, rfl, rfl, ?_, rfl, ?_⟩
  · exact (c9_offset_not_forwarded
      (SrvRev.initState ⟨some "k", some "p", some "a"⟩) (some 10) (some 7)
      ⟨⟨"api.vapi.ai", "/call?limit=10", "GET",
        [("Authorization", "Bearer k"),
         ("Content-Type", "application/json")]⟩, none⟩).1
  · exact ((c9_offset_not_forwarded
      (SrvRev.initState ⟨some "k", some "p", some "a"⟩) (some 10) (some 7)
      ⟨⟨"api.vapi.ai", "/call?limit=10", "GET",
        [("Authorization", "Bearer k"),
         ("Content-Type", "application/json")]⟩, none⟩).2.1 rfl).2
  · exact ((c9_offset_not_forwarded
      (SrvRev.initState ⟨some "k", some "p", some "a"⟩) none none
      ⟨⟨"api.vapi.ai", "/call?limit=100", "GET",
        [("Authorization", "Bearer k"),
         ("Content-Type", "application/json")]⟩, none⟩).2.2 rfl).2
